import Mathlib

/-
  Verification of the Ezra user-journey end-to-end browser test suite.

  The repository is a Playwright page-object test suite. We shallowly embed
  the page objects and utilities as pure Lean functions: the browser DOM and
  the outcomes of the individual driver calls (visibility checks, clicks,
  text reads) are supplied by explicit environment records, awaited actions
  that can reject are modelled as `Except String`-valued functions, and a
  try/catch block that swallows every failure is modelled by `tryCatchUnit`.
-/

set_option maxHeartbeats 1000000

/-! ## String utilities mirroring the JavaScript primitives used by the suite -/

/-- First-occurrence split: `firstOccSplit pat l = some (pre, suf)` when
`l = pre ++ pat ++ suf` at the leftmost occurrence of `pat`, `none` when
`pat` does not occur.  Mirrors the leftmost-match search of JavaScript
`String.prototype.replace` and `String.prototype.includes`. -/
def firstOccSplit (pat : List Char) : List Char → Option (List Char × List Char)
  | [] => if pat.isEmpty then some ([], []) else none
  | c :: rest =>
    if pat.isPrefixOf (c :: rest) then
      some ([], (c :: rest).drop pat.length)
    else
      match firstOccSplit pat rest with
      | some (pre, suf) => some (c :: pre, suf)
      | none => none

/-- JavaScript `s.includes(pat)`. -/
def strContains (s pat : String) : Bool :=
  (firstOccSplit pat.data s.data).isSome

/-- JavaScript `s.replace(pat, rep)` with a string pattern: replaces only the
first occurrence. -/
def replaceFirst (s pat rep : String) : String :=
  match firstOccSplit pat.data s.data with
  | some (pre, suf) => String.mk (pre ++ rep.data ++ suf)
  | none => s

/-- JavaScript `s.replace(/\s/g, "")`: drop every whitespace character. -/
def stripWhitespace (s : String) : String :=
  String.mk (s.data.filter fun c => ¬ c.isWhitespace)

/-- JavaScript `s.padStart(n, c)`. -/
def padStart (s : String) (n : Nat) (c : Char) : String :=
  String.mk (List.replicate (n - s.length) c) ++ s

/-- JavaScript `s.toLowerCase()`: lower-case every character. -/
def strToLower (s : String) : String :=
  String.mk (s.data.map Char.toLower)

/-- JavaScript `s.trim()`: drop leading and trailing whitespace. -/
def strTrim (s : String) : String :=
  String.mk (((s.data.dropWhile Char.isWhitespace).reverse.dropWhile Char.isWhitespace).reverse)

/-- JavaScript `s.toLowerCase().trim()` as applied to button texts. -/
def normalizeText (s : String) : String :=
  strTrim (strToLower s)

/-- Playwright `hasText` string matching: case-insensitive substring. -/
def hasTextCI (s pat : String) : Bool :=
  strContains (strToLower s) (strToLower pat)

/-- `true` on `Except.ok`: the operation resolved instead of throwing. -/
def isOkE {ε α : Type} : Except ε α → Bool
  | .ok _ => true
  | .error _ => false

/-- A `try { body } catch (e) { log }` block around a whole `Promise<void>`
body: whatever the body does, the enclosing function resolves normally. -/
def tryCatchUnit (x : Except String Unit) : Except String Unit :=
  match x with
  | .ok _ => .ok ()
  | .error _ => .ok ()

/-! ## utils/test-data (src/unnamed/part_000) -/

namespace TestData

/-- `interface TestUser` (part_000 lines 11-15): `name` is optional. -/
structure TestUser where
  email : String
  password : String
  name : Option String
deriving DecidableEq

/-- `interface BookingData` (part_000 lines 17-22). -/
structure BookingData where
  date : String
  time : String
  service : Option String
  coach : Option String
deriving DecidableEq

/-- `interface PaymentCard` (part_000 lines 24-30): `address` is optional. -/
structure PaymentCard where
  number : String
  expiry : String
  cvv : String
  name : String
  address : Option String
deriving DecidableEq

/-- The node environment: a partial map from variable names to values. -/
abbrev EnvMap := String → Option String

/-- JavaScript `process.env.KEY || dflt`: the default is used when the
variable is unset or set to the empty string (falsy). -/
def envOrDefault (env : EnvMap) (key dflt : String) : String :=
  match env key with
  | some v => if v = "" then dflt else v
  | none => dflt

/-- `testUsers.valid` (part_000 lines 35-39). -/
def testUsersValid (env : EnvMap) : TestUser :=
  { email := envOrDefault env "TEST_USER_EMAIL" "testuser@ezra.com"
  , password := envOrDefault env "TEST_USER_PASSWORD" "TestPassword123!"
  , name := some (envOrDefault env "TEST_USER_NAME" "Test User") }

/-- `testUsers.invalid` (part_000 lines 40-43). -/
def testUsersInvalid (env : EnvMap) : TestUser :=
  { email := envOrDefault env "TEST_INVALID_EMAIL" "invalid@example.com"
  , password := envOrDefault env "TEST_INVALID_PASSWORD" "WrongPassword123!"
  , name := none }

/-- `testCards.valid` (part_000 lines 47-53). -/
def testCardsValid (env : EnvMap) : PaymentCard :=
  { number := envOrDefault env "TEST_CARD_NUMBER" "4242 4242 4242 4242"
  , expiry := envOrDefault env "TEST_CARD_EXPIRY" "12/34"
  , cvv := envOrDefault env "TEST_CARD_CVV" "333"
  , name := envOrDefault env "TEST_CARD_NAME" "Test User"
  , address := some (envOrDefault env "TEST_CARD_ADDRESS" "123 Test Street, Test City, TC 12345") }

/-- `testCards.declined` (part_000 lines 54-59): hardcoded literals, the
environment is never consulted. -/
def testCardsDeclined : PaymentCard :=
  { number := "4000 0000 0000 0002", expiry := "12/25", cvv := "123"
  , name := "Test User", address := none }

/-- `testCards.invalidFormat` (part_000 lines 60-65): hardcoded literals. -/
def testCardsInvalidFormat : PaymentCard :=
  { number := "1234 5678 9012 3456", expiry := "12/25", cvv := "123"
  , name := "Test User", address := none }

/-- `testCards.expired` (part_000 lines 66-71): hardcoded literals. -/
def testCardsExpired : PaymentCard :=
  { number := "4242 4242 4242 4242", expiry := "01/20", cvv := "123"
  , name := "Test User", address := none }

/-- The card number the decline spec submits
(schedule-scan-payment-decline.spec.ts line 58 reads `testCards.declined`;
the expression does not mention the environment). -/
def declineSpecCardNumber (_env : EnvMap) : String :=
  testCardsDeclined.number

/-- The password the registration specs use
(register-login.spec.ts line 44 and part_001 line 35: a literal). -/
def registerSpecPassword : String :=
  "YourTestPassword!"

/-- `getTimeSlot` (part_000 lines 86-91). -/
def getTimeSlot (hour minute : Nat) : String :=
  let period := if hour ≥ 12 then "PM" else "AM"
  let displayHour := if hour > 12 then hour - 12 else if hour = 0 then 12 else hour
  let displayMinute := padStart (toString minute) 2 '0'
  toString displayHour ++ ":" ++ displayMinute ++ " " ++ period

/-- Field names of `TestUser` (part_000 lines 11-15). -/
def testUserFields : List String := ["email", "password", "name"]

/-- Field names of `BookingData` (part_000 lines 17-22). -/
def bookingDataFields : List String := ["date", "time", "service", "coach"]

/-- Field names of `PaymentCard` (part_000 lines 24-30). -/
def paymentCardFields : List String := ["number", "expiry", "cvv", "name", "address"]

end TestData

/-! ## utils/cookie-handler (appended in src/page-objects/SelectScanPage.ts) -/

namespace CookieHandler

/-- The Accept-button selector fallback chain (cookie-handler lines 199-206). -/
def acceptButtonSelectors : List String :=
  [ "button:has-text(\"Accept\")"
  , "button:has-text(\"Accept All\")"
  , "[data-testid=\"cookie-accept\"]"
  , ".cookie-consent button:has-text(\"Accept\")"
  , "button[aria-label*=\"Accept\"]"
  , "button[aria-label*=\"accept\"]" ]

/-- Observable page state for `acceptCookies`: visibility of the cookie
popup container and of each candidate Accept button, and whether each click
resolves. -/
structure CookieEnv where
  popupVisible : Bool
  quickAcceptVisible : Bool
  selVisible : Nat → Bool
  selClickOk : Nat → Bool
  popupAcceptVisible : Bool
  popupAcceptClickOk : Bool

/-- The selector loop (cookie-handler lines 208-218): the first visible
Accept button is clicked and the function returns; a rejected click
propagates (to the enclosing catch). -/
def acceptCookiesLoop (env : CookieEnv) : List Nat → Option (Except String Unit)
  | [] => none
  | i :: rest =>
    if env.selVisible i then
      some (if env.selClickOk i then .ok () else .error "accept button click rejected")
    else acceptCookiesLoop env rest

/-- Body of `acceptCookies` (cookie-handler lines 180-230), before the
enclosing try/catch. -/
def acceptCookiesBody (env : CookieEnv) : Except String Unit :=
  if ¬ env.popupVisible ∧ ¬ env.quickAcceptVisible then .ok ()
  else
    match acceptCookiesLoop env (List.range acceptButtonSelectors.length) with
    | some r => r
    | none =>
      if env.popupVisible then
        if env.popupAcceptVisible then
          if env.popupAcceptClickOk then .ok () else .error "accept in popup click rejected"
        else .ok ()
      else .ok ()

/-- `acceptCookies` (cookie-handler lines 179-235): the whole body sits in a
try/catch whose handler only comments and continues. -/
def acceptCookies (env : CookieEnv) : Except String Unit :=
  tryCatchUnit (acceptCookiesBody env)

end CookieHandler

/-! ## utils/timezone-handler.ts -/

namespace TimezoneHandler

/-- The `action` parameter of `handleTimezonePopup`. -/
inductive TzAction
  | confirm
  | close
  | skip
deriving DecidableEq

/-- The Strategy-0 selector chain of the confirm handler
(timezone-handler lines 93-101): four CSS string selectors scoped to the
timezone modal followed by three popup-relative locator fallbacks. -/
inductive TzSelector
  | css (sel : String)
  | popupFirstConfirmButton
  | popupBtnBarLastButton
  | popupLastButton
deriving DecidableEq

def confirmSelectors : List TzSelector :=
  [ .css ".timezone-modal__btn-bar button.basic.small.yellow:has-text(\"Confirm\")"
  , .css ".timezone-modal button.basic.small.yellow:has-text(\"Confirm\")"
  , .css ".timezone-modal__btn-bar button:has-text(\"Confirm\")"
  , .css ".timezone-modal button:has-text(\"Confirm\")"
  , .popupFirstConfirmButton
  , .popupBtnBarLastButton
  , .popupLastButton ]

/-- Sign-out detection applied to a normalized button text
(timezone-handler line 127 and analogues). -/
def isSignOutText (s : String) : Bool :=
  strContains s "sign out" || strContains s "logout" || strContains s "log out"

/-- The weaker sign-out check used on second-to-last buttons
(timezone-handler lines 351 and 495: only two of the three phrases). -/
def isSignOutTextWeak (s : String) : Bool :=
  strContains s "sign out" || strContains s "logout"

/-- Observable page state for `handleTimezonePopup`.  The page is modelled
as a static snapshot: `pageClosed` answers every `page.isClosed()` probe.
Per-index function fields answer the probes the handler makes against the
i-th Strategy-0 selector (`s0...`), against the i-th button of the popup
confirm-button locator `popup.locator(button:has-text Confirm)` (`cb...`,
re-queried with identical results by strategies 1, 2 and 3), and against
the i-th button of `popup.locator(button)` (`pb...`, used by strategies 1b
and 4). -/
structure TzEnv where
  pageClosed : Bool
  tzModalVisible : Bool
  titleVisible : Bool
  anyModalVisible : Bool
  anyModalText : String
  popupVisible : Bool
  s0visible : Nat → Bool
  s0text : Nat → String
  s0enabled : Nat → Bool
  s0scrollOk : Nat → Bool
  s0stillVisible : Nat → Bool
  s0stillEnabled : Nat → Bool
  s0clickOk : Nat → Bool
  s0jsClickOk : Nat → Bool
  s0redirectToLogin : Nat → Bool
  s0popupGone : Nat → Bool
  cbCount : Nat
  cbVisible : Nat → Bool
  cbText : Nat → String
  cbInPopupBox : Nat → Bool
  cbScrollOk : Nat → Bool
  cbClickOk : Nat → Bool
  cbPopupGone : Nat → Bool
  pbCount : Nat
  pbVisible : Nat → Bool
  pbText : Nat → String
  pbClickOk : Nat → Bool
  pbPopupGone : Nat → Bool
  popupBoxExists : Bool
  coordClickOk : Bool
  closeVisible : Bool
  closeClickOk : Bool

/-- Popup detection (timezone-handler lines 31-73): a popup locator is
selected when the timezone-modal class matches, the title text matches, or
a generic modal whose text mentions the time zone is visible. -/
def popupFound (env : TzEnv) : Bool :=
  if env.tzModalVisible then true
  else if env.titleVisible then true
  else if env.anyModalVisible then
    strContains (strToLower env.anyModalText) "time zone"
      || strContains (strToLower env.anyModalText) "timezone"
  else false

/-- Outcome of one iteration of the Strategy-0 selector loop. -/
inductive S0Iter
  | hit
  | ret
  | next
deriving DecidableEq

/-- One iteration of the Strategy-0 loop (timezone-handler lines 103-220)
for selector index `i`.  Every rejected await inside the iteration is
caught by the per-iteration try and turns into `next`. -/
def strategy0Iter (env : TzEnv) (i : Nat) : S0Iter :=
  if ¬ env.s0visible i then .next
  else
    let t := normalizeText (env.s0text i)
    if isSignOutText t then .next
    else if ¬ (strContains t "confirm" || decide (i ≥ confirmSelectors.length - 2))
        ∧ i < confirmSelectors.length - 2 then .next
    else if ¬ env.s0enabled i then .next
    else if ¬ env.s0scrollOk i then .next
    else if ¬ (env.s0stillVisible i && env.s0stillEnabled i) then .next
    else if ¬ (env.s0clickOk i || env.s0jsClickOk i) then .next
    else if env.s0redirectToLogin i then .ret
    else if env.s0popupGone i then .hit
    else .next

/-- Result of the whole Strategy-0 loop. -/
inductive S0Outcome
  | clicked (i : Nat)
  | earlyReturn (i : Nat)
  | fallthrough
deriving DecidableEq

def strategy0Go (env : TzEnv) : List Nat → S0Outcome
  | [] => .fallthrough
  | i :: rest =>
    match strategy0Iter env i with
    | .hit => .clicked i
    | .ret => .earlyReturn i
    | .next => strategy0Go env rest

/-- Strategy 0 (timezone-handler lines 86-227): walk the selector chain in
order. -/
def strategy0 (env : TzEnv) : S0Outcome :=
  strategy0Go env (List.range confirmSelectors.length)

end TimezoneHandler

namespace TimezoneHandler

/-- Strategy 1 (timezone-handler lines 229-323): iterate the visible
Confirm buttons of the popup; each iteration body is in its own try, so a
rejected scroll or click just moves on; success requires the popup to be
gone afterwards, with a bounding-box containment pre-check. -/
def strategy1Go (env : TzEnv) : List Nat → Option (Except String Unit)
  | [] => none
  | i :: rest =>
    if env.cbVisible i
        ∧ ¬ isSignOutText (normalizeText (env.cbText i))
        ∧ strContains (normalizeText (env.cbText i)) "confirm"
        ∧ env.cbInPopupBox i
        ∧ env.cbScrollOk i
        ∧ env.cbClickOk i
        ∧ env.cbPopupGone i then
      some (.ok ())
    else strategy1Go env rest

def strategy1 (env : TzEnv) : Option (Except String Unit) :=
  strategy1Go env (List.range env.cbCount)

/-- Strategy 1b (timezone-handler lines 325-398): click the last button of
the popup unless its text looks like sign-out, in which case the
second-to-last button is tried (with the weaker sign-out check) and the
handler returns right after that click without re-checking the popup.
The whole strategy is wrapped in a try, so any rejection moves on. -/
def strategy1b (env : TzEnv) : Option (Except String Unit) :=
  if env.pbCount > 0 then
    let last := env.pbCount - 1
    if env.pbVisible last then
      if isSignOutText (normalizeText (env.pbText last)) then
        if env.pbCount > 1
            ∧ env.pbVisible (env.pbCount - 2)
            ∧ ¬ isSignOutTextWeak (normalizeText (env.pbText (env.pbCount - 2))) then
          if env.pbClickOk (env.pbCount - 2) then some (.ok ()) else none
        else none
      else
        if env.pbClickOk last then
          if env.pbPopupGone last then some (.ok ()) else none
        else none
    else none
  else none

/-- Strategy 2 (timezone-handler lines 400-449): the same confirm-button
locator is walked again, without the bounding-box check; the click is in a
try and success requires the popup to be gone. -/
def strategy2Go (env : TzEnv) : List Nat → Option (Except String Unit)
  | [] => none
  | i :: rest =>
    if env.cbVisible i
        ∧ ¬ isSignOutText (normalizeText (env.cbText i))
        ∧ strContains (normalizeText (env.cbText i)) "confirm"
        ∧ env.cbScrollOk i
        ∧ env.cbClickOk i
        ∧ env.cbPopupGone i then
      some (.ok ())
    else strategy2Go env rest

def strategy2 (env : TzEnv) : Option (Except String Unit) :=
  strategy2Go env (List.range env.cbCount)

/-- Strategy 3 (timezone-handler lines 451-472): the first confirm button
in the popup; its scroll and click are not inside any inner try, so a
rejection escapes to the outer catch; on a resolved click the handler
returns without re-checking the popup. -/
def strategy3 (env : TzEnv) : Option (Except String Unit) :=
  if env.cbCount > 0 ∧ env.cbVisible 0 then
    if isSignOutText (normalizeText (env.cbText 0)) then none
    else if env.cbScrollOk 0 ∧ env.cbClickOk 0 then some (.ok ())
    else some (.error "strategy 3 scroll or click rejected")
  else none

/-- Strategy 4 (timezone-handler lines 474-514): the last button of the
popup again; a sign-out last button diverts to the second-to-last button
(weak check) or returns doing nothing; the clicks are not inside a try. -/
def strategy4 (env : TzEnv) : Option (Except String Unit) :=
  if env.pbCount > 0 ∧ env.pbVisible (env.pbCount - 1) then
    if isSignOutText (normalizeText (env.pbText (env.pbCount - 1))) then
      if env.pbCount > 1
          ∧ env.pbVisible (env.pbCount - 2)
          ∧ ¬ isSignOutTextWeak (normalizeText (env.pbText (env.pbCount - 2))) then
        if env.pbClickOk (env.pbCount - 2) then some (.ok ())
        else some (.error "strategy 4 second-to-last click rejected")
      else some (.ok ())
    else
      if env.pbClickOk (env.pbCount - 1) then some (.ok ())
      else some (.error "strategy 4 last click rejected")
  else none

/-- Coordinate fallback (timezone-handler lines 516-527): click the
bottom-right area of the popup bounding box when one is available. -/
def coordinateFallback (env : TzEnv) : Option (Except String Unit) :=
  if env.popupBoxExists then
    if env.coordClickOk then some (.ok ())
    else some (.error "coordinate mouse click rejected")
  else none

/-- The whole `action = confirm` branch: Strategy 0 first, then the
fallback strategies in source order; falling past every strategy ends the
branch and the function resolves. -/
def confirmFlow (env : TzEnv) : Except String Unit :=
  match strategy0 env with
  | .clicked _ => .ok ()
  | .earlyReturn _ => .ok ()
  | .fallthrough =>
    match strategy1 env with
    | some r => r
    | none =>
      match strategy1b env with
      | some r => r
      | none =>
        match strategy2 env with
        | some r => r
        | none =>
          match strategy3 env with
          | some r => r
          | none =>
            match strategy4 env with
            | some r => r
            | none =>
              match coordinateFallback env with
              | some r => r
              | none => .ok ()

/-- The `action = close` branch (timezone-handler lines 528-538). -/
def closeFlow (env : TzEnv) : Except String Unit :=
  if env.closeVisible then
    if env.closeClickOk then .ok () else .error "close click rejected"
  else .ok ()

/-- Body of `handleTimezonePopup` (timezone-handler lines 19-538), before
the enclosing try/catch: early return when the page is closed, when no
timezone popup is detected, or when the detected popup is not visible;
otherwise dispatch on the action (the `skip` action matches no branch and
does nothing). -/
def handleTimezonePopupBody (env : TzEnv) (action : TzAction) : Except String Unit :=
  if env.pageClosed then .ok ()
  else if ¬ popupFound env then .ok ()
  else if ¬ env.popupVisible then .ok ()
  else
    match action with
    | .confirm => confirmFlow env
    | .close => closeFlow env
    | .skip => .ok ()

/-- `handleTimezonePopup` (timezone-handler lines 15-543): the body sits in
a try/catch whose handler only comments that the popup was absent or
already handled. -/
def handleTimezonePopup (env : TzEnv) (action : TzAction) : Except String Unit :=
  tryCatchUnit (handleTimezonePopupBody env action)

/-- A Strategy-0 selector index is eligible when its button is visible,
enabled (also after scrolling), carries a non-sign-out text that contains
confirm unless the index is one of the last two fallbacks, and one of the
two click attempts resolves. -/
def eligibleConfirmButton (env : TzEnv) (i : Nat) : Bool :=
  env.s0visible i
    && ! isSignOutText (normalizeText (env.s0text i))
    && (strContains (normalizeText (env.s0text i)) "confirm"
        || decide (i ≥ confirmSelectors.length - 2))
    && env.s0enabled i
    && env.s0scrollOk i
    && (env.s0stillVisible i && env.s0stillEnabled i)
    && (env.s0clickOk i || env.s0jsClickOk i)

end TimezoneHandler

/-! ## page-objects/ScheduleScanPage.ts -/

namespace ScheduleScanPage

/-- The argument record of `scheduleAppointment`
(ScheduleScanPage.ts lines 116-122). -/
structure SchedSlot where
  state : String
  centerName : String
  additionalInfo : String
  appointmentDate : String
  appointmentTime : String
deriving DecidableEq

/-- Field names of the `scheduleAppointment` slot record
(ScheduleScanPage.ts lines 116-122). -/
def scheduleSlotFields : List String :=
  ["state", "centerName", "additionalInfo", "appointmentDate", "appointmentTime"]

/-- The hardcoded calendar dates tried first
(ScheduleScanPage.ts line 146). -/
def knownGoodDates : List String :=
  ["W 26", "T 20", "W 19", "T 21", "F 28", "M 24", "T 25"]

/-- Observable page state for the scheduling flow.  Boolean fields answer
the visibility/enabled probes and click outcomes of the individual driver
calls, in source order; `slotLabels` is the list of texts of the visible
time-slot elements once a date with slots has been selected. -/
structure SchedEnv where
  stateDropdownClickOk : Bool
  stateOptionVisible : Bool
  stateOptionClickOk : Bool
  centersVisible : Bool
  calendarAlreadyVisible : Bool
  centerOptionVisible : Bool
  centerCardVisible : Bool
  centerCardClickOk : Bool
  hasAddressOptions : Bool
  addressClickOk : Bool
  dateButtonAppears : Bool
  novemberHeaderVisible : Bool
  textareaVisible : Bool
  knownDateVisible : String → Bool
  knownDateClickOk : String → Bool
  slotsAfterKnown : String → Bool
  dateButtonCount : Nat
  scanClickOk : Nat → Bool
  slotsAfterScan : Nat → Bool
  slotLabels : List String
  continueVisible : Bool
  continueEnabled : Bool
  navOk : Bool

/-- `selectState` (ScheduleScanPage.ts lines 40-53): click the dropdown,
wait for the state option, click it, wait for the centers; each wait that
times out and each rejected click throws. -/
def selectState (env : SchedEnv) : Except String Unit :=
  if ¬ env.stateDropdownClickOk then .error "state dropdown click rejected"
  else if ¬ env.stateOptionVisible then .error "state option not visible within timeout"
  else if ¬ env.stateOptionClickOk then .error "state option click rejected"
  else if ¬ env.centersVisible then .error "no center visible within timeout"
  else .ok ()

/-- `selectCenter` (ScheduleScanPage.ts lines 56-113): skip when the
calendar is already visible; throw when the named center is not found;
otherwise click the center card (optionally an address option) and wait for
the calendar date buttons, throwing on timeout. -/
def selectCenter (env : SchedEnv) (centerName : String) : Except String Unit :=
  if env.calendarAlreadyVisible then .ok ()
  else if ¬ env.centerOptionVisible then
    .error ("Center " ++ centerName ++ " not found. Make sure the selected state contains this center.")
  else if ¬ env.centerCardVisible then .error "center card not visible within timeout"
  else if ¬ env.centerCardClickOk then .error "center card click rejected"
  else if env.hasAddressOptions ∧ ¬ env.addressClickOk then .error "address option click rejected"
  else if ¬ env.dateButtonAppears then .error "calendar date buttons not visible within timeout"
  else .ok ()

/-- The known-good-dates loop (ScheduleScanPage.ts lines 151-179): a date
counts as clicked when it is visible, its click resolves and time slots
appear afterwards; any rejection inside the loop body is caught and the
loop continues. -/
def tryKnownDates (env : SchedEnv) : Bool :=
  knownGoodDates.any fun d =>
    env.knownDateVisible d && env.knownDateClickOk d && env.slotsAfterKnown d

/-- Start index of the calendar scan
(ScheduleScanPage.ts line 189: `Math.min(5, floor(count / 3))`). -/
def scanStartIndex (count : Nat) : Nat :=
  min 5 (count / 3)

/-- Indices visited by the calendar scan (ScheduleScanPage.ts line 193:
`for i in [startIndex, min(count, startIndex + 15))`). -/
def scanIndices (count : Nat) : List Nat :=
  List.range' (scanStartIndex count)
    (min count (scanStartIndex count + 15) - scanStartIndex count)

/-- The calendar-scan loop (ScheduleScanPage.ts lines 182-220). -/
def tryScanDates (env : SchedEnv) : Bool :=
  (scanIndices env.dateButtonCount).any fun i =>
    env.scanClickOk i && env.slotsAfterScan i

/-- Result data of a successful `scheduleAppointment` run: the text of the
time slot whose parent was clicked. -/
structure SchedResult where
  clickedSlot : String
deriving DecidableEq

/-- `scheduleAppointment` (ScheduleScanPage.ts lines 116-279): select state
and center; wait for the calendar header; optionally fill the textarea;
click dates until one shows time slots, throwing when none does; pick the
slot whose text has the requested time after `replace(":00", ":30")`, or
the first slot when none matches; wait for the Continue button and
navigate, throwing on any timeout. -/
def scheduleAppointment (env : SchedEnv) (slot : SchedSlot) : Except String SchedResult :=
  match selectState env with
  | .error e => .error e
  | .ok _ =>
    match selectCenter env slot.centerName with
    | .error e => .error e
    | .ok _ =>
      if ¬ env.novemberHeaderVisible then
        .error "calendar header selector not visible within timeout"
      else
        let dateClicked := tryKnownDates env || tryScanDates env
        if ¬ dateClicked then
          .error "Could not select any available date with time slots"
        else if env.slotLabels.length = 0 then
          .error "No time slots found"
        else
          let targetTime := replaceFirst slot.appointmentTime ":00" ":30"
          let chosen :=
            match env.slotLabels.find? (fun l => hasTextCI l targetTime) with
            | some l => l
            | none => env.slotLabels.headD ""
          if ¬ env.continueVisible then
            .error "Continue button not visible within timeout"
          else if ¬ env.continueEnabled then
            .error "Continue button not enabled within timeout"
          else if ¬ env.navOk then
            .error "navigation to payment page timed out"
          else .ok { clickedSlot := chosen }

/-- `goto` (ScheduleScanPage.ts lines 30-37): navigate only when the
current URL does not already contain the schedule path. -/
def gotoTarget (currentUrl : String) : Option String :=
  if strContains currentUrl "/schedule" then none else some "/schedule"

end ScheduleScanPage

/-! ## page-objects/ReserveAppointmentPage.ts (src/unnamed/part_002) -/

namespace ReserveAppointmentPage

/-- Observable page state for `getStripeFrame`: whether the page is closed,
and for each poll instant the non-main frames paired with the visibility of
a Card-number textbox inside them.  `maxPolls` is the number of 250 ms
re-polls the 15 s deadline allows. -/
structure StripeEnv where
  pageClosed : Bool
  framesAt : Nat → List (Nat × Bool)
  maxPolls : Nat

/-- `findStripeFrame` (part_002 lines 127-139): the first frame showing a
Card number textbox. -/
def findStripeFrame (frames : List (Nat × Bool)) : Option Nat :=
  (frames.find? fun f => f.2).map fun f => f.1

/-- The deadline polling loop of `getStripeFrame`
(part_002 lines 141-145). -/
def pollStripeFrame (env : StripeEnv) : Nat → Nat → Option Nat
  | t, 0 => findStripeFrame (env.framesAt t)
  | t, fuel + 1 =>
    match findStripeFrame (env.framesAt t) with
    | some f => some f
    | none => pollStripeFrame env (t + 1) fuel

/-- `getStripeFrame` (part_002 lines 120-152): throws when the page is
closed and when no frame with a Card-number field is found by the
deadline. -/
def getStripeFrame (env : StripeEnv) : Except String Nat :=
  if env.pageClosed then
    .error "Payment page is no longer available (page closed)."
  else
    match pollStripeFrame env 0 env.maxPolls with
    | some f => .ok f
    | none => .error "Could not find Stripe iframe. Make sure you are on the payment page."

/-- Observable state for the card-number step of `fillPaymentDetails`:
the input value read back after the first `fill` and after the
character-by-character retry. -/
structure CardFillEnv where
  valueAfterFill : String
  valueAfterRetry : String

/-- The card-number step of `fillPaymentDetails` (part_002 lines 175-220):
fill once; when the read-back value is empty or has fewer than 15 digits,
type the number again character by character and throw when the retry still
has fewer than 15 digits.  The second component counts the entry
attempts. -/
def fillCardNumberStep (env : CardFillEnv) : Except String Unit × Nat :=
  let digitsOnly := stripWhitespace env.valueAfterFill
  if env.valueAfterFill = "" || digitsOnly.length < 15 then
    let retryDigits := stripWhitespace env.valueAfterRetry
    if retryDigits.length < 15 then
      (.error "Card number not filled correctly after retry.", 2)
    else (.ok (), 2)
  else (.ok (), 1)

/-- `goto` (part_002 lines 79-97): navigate only when the current URL does
not already look like the payment page (a closed page is re-opened on the
reserve-appointment path by `waitUntilReady`, part_002 lines 57-62). -/
def gotoTarget (currentUrl : String) (pageClosed : Bool) : Option String :=
  if pageClosed then some "/reserve-appointment"
  else if strContains currentUrl "/reserve"
      || strContains currentUrl "reserve-appointment"
      || strContains currentUrl "payment"
      || strContains currentUrl "appointment" then none
  else some "/reserve-appointment"

end ReserveAppointmentPage

/-! ## page-objects/RegistrationPage.ts -/

namespace RegistrationPage

/-- Observable state for `submit`: visibility and attachment of the submit
button, the answer of each successive `isEnabled()` probe, and whether the
final click resolves. -/
structure SubmitEnv where
  visible : Bool
  attached : Bool
  enabledAt : Nat → Bool
  clickOk : Bool

/-- The enabling poll loop of `submit` (RegistrationPage.ts lines 339-347):
up to ten further `isEnabled` probes, stopping early on the first `true`;
returns the index of the next unused probe. -/
def submitPollIdx (env : SubmitEnv) : Nat → Nat → Nat
  | idx, 0 => idx
  | idx, n + 1 => if env.enabledAt idx then idx + 1 else submitPollIdx env (idx + 1) n

/-- `submit` (RegistrationPage.ts lines 323-368): wait for the button, poll
its enabled state, throw when it never becomes enabled, otherwise click
once.  The second component counts the clicks performed. -/
def submit (env : SubmitEnv) : Except String Unit × Nat :=
  if ¬ env.visible then (.error "submit button not visible within timeout", 0)
  else if ¬ env.attached then (.error "submit button not attached within timeout", 0)
  else
    let idx := if env.enabledAt 0 then 1 else submitPollIdx env 1 10
    if env.enabledAt idx then
      if env.clickOk then (.ok (), 1) else (.error "submit click rejected", 1)
    else
      (.error "Submit button is not enabled. Make sure all required checkboxes are selected.", 0)

/-- Observable state for one iteration of the `selectAllCheckboxes` loop
(RegistrationPage.ts lines 254-310): visibility, whether the element is a
standard input, its aria-checked attribute, and the checked state before
and after the first click. -/
structure CheckboxEnv where
  visible : Bool
  tagIsInput : Bool
  ariaChecked : String
  checkedBefore : Bool
  checkedAfterClick : Bool

/-- Number of clicks the loop body performs on one checkbox: none when it
is invisible or already checked, one click otherwise, and a second click
when a standard input still reads unchecked after the first click
(RegistrationPage.ts lines 288-297). -/
def processCheckboxClicks (env : CheckboxEnv) : Nat :=
  if ¬ env.visible then 0
  else
    let isChecked := if env.tagIsInput then env.checkedBefore else env.ariaChecked = "true"
    if isChecked then 0
    else if env.tagIsInput ∧ ¬ env.checkedAfterClick then 2
    else 1

end RegistrationPage

/-! ## page-objects/LoginPage.ts and SelectScanPage.ts navigation -/

namespace LoginPage

/-- The candidate navigation targets of `goto`
(LoginPage.ts line 69), tried in order until the login form shows. -/
def loginNavUrls : List String :=
  ["/login", "/sign-in", "/signin", "/"]

end LoginPage

namespace SelectScanPage

/-- `goto` (SelectScanPage.ts lines 31-58): no navigation when already on
the select-scan (or select-plan) path; from the dashboard the Book-a-scan
button is clicked instead of navigating; otherwise navigate to
/select-scan. -/
def gotoTarget (currentUrl : String) (isOnDashboard : Bool) : Option String :=
  if strContains currentUrl "/select-scan" || strContains currentUrl "/select-plan" then none
  else if isOnDashboard then none
  else some "/select-scan"

end SelectScanPage

/-! ## Spec-side definitions for refinement comparison -/

namespace TestData

/-- Following the words of spec section 3, which names the booking-request
entity as: a booking request (state, center, date, time). -/
def specBookingRequestFields : List String :=
  ["state", "center", "date", "time"]

/-- The evident renaming between the field names of spec section 3 and the
field names of the `scheduleAppointment` slot record. -/
def specFieldToCode : String → String := fun f =>
  if f = "center" then "centerName"
  else if f = "date" then "appointmentDate"
  else if f = "time" then "appointmentTime"
  else f

end TestData

/-! ## Concrete page-state snapshots used to instantiate the theorems -/

/-- A schedule page where neither the calendar nor the requested center is
visible. -/
def centerMissingEnv : ScheduleScanPage.SchedEnv :=
  { stateDropdownClickOk := true, stateOptionVisible := true
  , stateOptionClickOk := true, centersVisible := true
  , calendarAlreadyVisible := false, centerOptionVisible := false
  , centerCardVisible := true, centerCardClickOk := true
  , hasAddressOptions := false, addressClickOk := true
  , dateButtonAppears := true, novemberHeaderVisible := true
  , textareaVisible := true
  , knownDateVisible := fun _ => true, knownDateClickOk := fun _ => true
  , slotsAfterKnown := fun _ => true
  , dateButtonCount := 30, scanClickOk := fun _ => true
  , slotsAfterScan := fun _ => true
  , slotLabels := ["9:00 AM"]
  , continueVisible := true, continueEnabled := true, navOk := true }

/-- A schedule page where every date click leaves the slot list empty. -/
def noSlotsEnv : ScheduleScanPage.SchedEnv :=
  { stateDropdownClickOk := true, stateOptionVisible := true
  , stateOptionClickOk := true, centersVisible := true
  , calendarAlreadyVisible := true, centerOptionVisible := true
  , centerCardVisible := true, centerCardClickOk := true
  , hasAddressOptions := false, addressClickOk := true
  , dateButtonAppears := true, novemberHeaderVisible := true
  , textareaVisible := true
  , knownDateVisible := fun _ => true, knownDateClickOk := fun _ => true
  , slotsAfterKnown := fun _ => false
  , dateButtonCount := 30, scanClickOk := fun _ => true
  , slotsAfterScan := fun _ => false
  , slotLabels := []
  , continueVisible := true, continueEnabled := true, navOk := true }

/-- A schedule page where every interaction succeeds and three time slots
are listed. -/
def schedOkEnv : ScheduleScanPage.SchedEnv :=
  { stateDropdownClickOk := true, stateOptionVisible := true
  , stateOptionClickOk := true, centersVisible := true
  , calendarAlreadyVisible := true, centerOptionVisible := true
  , centerCardVisible := true, centerCardClickOk := true
  , hasAddressOptions := false, addressClickOk := true
  , dateButtonAppears := true, novemberHeaderVisible := true
  , textareaVisible := true
  , knownDateVisible := fun _ => true, knownDateClickOk := fun _ => true
  , slotsAfterKnown := fun _ => true
  , dateButtonCount := 30, scanClickOk := fun _ => true
  , slotsAfterScan := fun _ => true
  , slotLabels := ["9:00 AM", "10:30 AM", "1:30 PM"]
  , continueVisible := true, continueEnabled := true, navOk := true }

/-- The booking request the payment specs schedule
(schedule-scan-payment-decline.spec.ts lines 38-44). -/
def bookingSlot : ScheduleScanPage.SchedSlot :=
  { state := "California", centerName := "Walnut Creek"
  , additionalInfo := "decline scenario"
  , appointmentDate := "2026-10-18", appointmentTime := "10:00 AM" }

/-- A payment page with no frame ever showing a Card-number field. -/
def noFramesEnv : ReserveAppointmentPage.StripeEnv :=
  { pageClosed := false, framesAt := fun _ => [], maxPolls := 60 }

/-- A card-number entry where the first fill leaves two digits and the
character-by-character retry enters the full number. -/
def cardRetryEnv : ReserveAppointmentPage.CardFillEnv :=
  { valueAfterFill := "42", valueAfterRetry := "4242 4242 4242 4242" }

/-- A registration page whose submit button never becomes enabled. -/
def neverEnabledEnv : RegistrationPage.SubmitEnv :=
  { visible := true, attached := true, enabledAt := fun _ => false, clickOk := true }

/-- A timezone popup whose first two Strategy-0 selectors match nothing and
whose third matches a visible, enabled Confirm button that every click
dismisses. -/
def tzEnvEligible : TimezoneHandler.TzEnv :=
  { pageClosed := false, tzModalVisible := true, titleVisible := false
  , anyModalVisible := false, anyModalText := "", popupVisible := true
  , s0visible := fun i => decide (2 ≤ i), s0text := fun _ => "Confirm"
  , s0enabled := fun _ => true, s0scrollOk := fun _ => true
  , s0stillVisible := fun _ => true, s0stillEnabled := fun _ => true
  , s0clickOk := fun _ => true, s0jsClickOk := fun _ => false
  , s0redirectToLogin := fun _ => false, s0popupGone := fun _ => true
  , cbCount := 1, cbVisible := fun _ => true, cbText := fun _ => "Confirm"
  , cbInPopupBox := fun _ => true, cbScrollOk := fun _ => true
  , cbClickOk := fun _ => true, cbPopupGone := fun _ => true
  , pbCount := 2, pbVisible := fun _ => true
  , pbText := fun i => if i = 0 then "Confirm" else "Sign out"
  , pbClickOk := fun _ => true, pbPopupGone := fun _ => true
  , popupBoxExists := true, coordClickOk := true
  , closeVisible := true, closeClickOk := true }

/-! ## Retry-site models for the retry inventory -/

namespace TimezoneHandler

/-- The click sub-step of a Strategy-0 iteration (timezone-handler lines
168-179): a regular click first and, when it rejects, one JavaScript
click; a rejection of the JavaScript click too is caught by the
per-iteration try.  First component: whether some click resolved (this is
the `s0clickOk i || s0jsClickOk i` disjunct of `strategy0Iter`); second
component: the number of click attempts performed. -/
def confirmClickStep (clickOk jsClickOk : Bool) : Bool × Nat :=
  if clickOk then (true, 1)
  else if jsClickOk then (true, 2)
  else (false, 2)

end TimezoneHandler

namespace ReserveAppointmentPage

/-- The number of country-selection strategies of `fillPaymentDetails`
(part_002 lines 331-341: selectOption by code, selectOption by value,
selectOption by label, then open the combobox and click the option). -/
def countrySelectionStrategyCount : Nat := 4

/-- Observable state for the country-selection step of `fillPaymentDetails`
(part_002 lines 326-362): whether the country combobox becomes visible and
whether each strategy resolves. -/
structure CountryEnv where
  comboVisible : Bool
  strategyOk : Nat → Bool

/-- The strategy loop (part_002 lines 343-353): the strategies are
attempted in order until the first that resolves; each rejection is caught
and the next strategy is tried.  Returns whether the country was selected
and how many strategies were attempted. -/
def countryLoop (env : CountryEnv) : List Nat → Bool × Nat
  | [] => (false, 0)
  | i :: rest =>
    if env.strategyOk i then (true, 1)
    else
      let r := countryLoop env rest
      (r.1, r.2 + 1)

/-- The whole country-selection step (part_002 lines 326-362): when the
combobox never becomes visible the timeout is caught and the step is
skipped with a log line; otherwise the strategy loop runs. -/
def selectCountryStep (env : CountryEnv) : Bool × Nat :=
  if ¬ env.comboVisible then (false, 0)
  else countryLoop env (List.range countrySelectionStrategyCount)

end ReserveAppointmentPage

namespace LoginPage

/-- Observable state for the navigation loop of `goto` (LoginPage.ts lines
68-163), with the page never closing: `succeedsAt i` says whether visiting
the i-th candidate URL ends the loop by a return (the login form shows,
the page turns out to be an already-logged-in page, or the form shows
after the extra wait on a login URL); a rejected navigation is caught and
also counts as not succeeding. -/
structure GotoEnv where
  succeedsAt : Nat → Bool

/-- The sequence of paths `goto` navigates to while walking the candidate
list (LoginPage.ts lines 71-143): each candidate is visited at most once,
and when the whole list is exhausted the final explicit re-try of /login
(LoginPage.ts lines 150-151) is appended. -/
def gotoNavSeq (env : GotoEnv) : List Nat → List String
  | [] => ["/login"]
  | i :: rest =>
    if env.succeedsAt i then [loginNavUrls.getD i ""]
    else loginNavUrls.getD i "" :: gotoNavSeq env rest

/-- All paths one `goto` call navigates to, in order. -/
def gotoNavigations (env : GotoEnv) : List String :=
  gotoNavSeq env (List.range loginNavUrls.length)

end LoginPage

/-! ## Helper lemmas -/

theorem tryCatchUnit_ok (x : Except String Unit) : tryCatchUnit x = .ok () := by
  cases x <;> rfl

theorem firstOccSplit_append (pat : List Char) :
    ∀ (l pre suf : List Char), firstOccSplit pat l = some (pre, suf) →
      l = pre ++ pat ++ suf := by
  intro l
  induction l with
  | nil =>
    intro pre suf h
    simp only [firstOccSplit] at h
    split at h
    · rename_i hp
      simp only [List.isEmpty_iff] at hp
      simp only [Option.some.injEq, Prod.mk.injEq] at h
      simp [hp, ← h.1, ← h.2]
    · exact absurd h (by simp)
  | cons c rest ih =>
    intro pre suf h
    simp only [firstOccSplit] at h
    split at h
    · rename_i hp
      rw [List.isPrefixOf_iff_prefix] at hp
      simp only [Option.some.injEq, Prod.mk.injEq] at h
      obtain ⟨h1, h2⟩ := h
      subst h1
      subst h2
      simp only [List.nil_append]
      exact (List.prefix_iff_eq_append.mp hp).symm
    · revert h
      split
      · rename_i pre' suf' hrec
        intro h
        simp only [Option.some.injEq, Prod.mk.injEq] at h
        obtain ⟨h1, h2⟩ := h
        subst h2
        have hr := ih pre' suf' hrec
        rw [← h1, hr]
        simp
      · intro h
        exact absurd h (by simp)

theorem replaceFirst_ne_of_contains (s : String)
    (h : strContains s ":00" = true) :
    replaceFirst s ":00" ":30" ≠ s := by
  unfold strContains at h
  unfold replaceFirst
  rcases hs : firstOccSplit (":00".data) s.data with _ | ⟨pre, suf⟩
  · rw [hs] at h; simp at h
  · show String.mk (pre ++ ":30".data ++ suf) ≠ s
    intro heq
    have hdata : s.data = pre ++ ":00".data ++ suf := firstOccSplit_append _ _ _ _ hs
    have hd : (String.mk (pre ++ ":30".data ++ suf)).data = s.data := by rw [heq]
    have hd2 : pre ++ ":30".data ++ suf = pre ++ ":00".data ++ suf := by
      rw [← hdata]; exact hd
    simp only [List.append_assoc] at hd2
    have h2 := List.append_cancel_left hd2
    have h3 := List.append_cancel_right h2
    simp at h3

theorem pollStripeFrame_none (env : ReserveAppointmentPage.StripeEnv)
    (h : ∀ t, ReserveAppointmentPage.findStripeFrame (env.framesAt t) = none) :
    ∀ fuel t, ReserveAppointmentPage.pollStripeFrame env t fuel = none := by
  intro fuel
  induction fuel with
  | zero =>
    intro t
    simp [ReserveAppointmentPage.pollStripeFrame, h t]
  | succ n ih =>
    intro t
    simp only [ReserveAppointmentPage.pollStripeFrame, h t]
    exact ih (t + 1)

theorem countryLoop_attempts_le (env : ReserveAppointmentPage.CountryEnv) :
    ∀ l : List Nat, (ReserveAppointmentPage.countryLoop env l).2 ≤ l.length := by
  intro l
  induction l with
  | nil => simp [ReserveAppointmentPage.countryLoop]
  | cons i rest ih =>
    simp only [ReserveAppointmentPage.countryLoop, List.length_cons]
    split
    · simp
    · show (ReserveAppointmentPage.countryLoop env rest).2 + 1 ≤ rest.length + 1
      exact Nat.succ_le_succ ih

/-! ## Claims -/

/-- C10: for every hour h in 0..23 and minute m in 0..59, `getTimeSlot h m`
is the 12-hour clock string H:MM AM-or-PM where the period is PM iff
h >= 12, the displayed hour is 12 when h = 0, h - 12 when h > 12 and h
otherwise, and the minute is zero-padded to two digits. -/
theorem C10_getTimeSlot_format : ∀ (h : Fin 24) (m : Fin 60),
    TestData.getTimeSlot h m =
      toString (if (h : Nat) = 0 then 12 else if (h : Nat) > 12 then (h : Nat) - 12 else (h : Nat))
      ++ ":" ++ (if (m : Nat) < 10 then "0" ++ toString (m : Nat) else toString (m : Nat))
      ++ " " ++ (if (h : Nat) ≥ 12 then "PM" else "AM") := by
  decide

/-- C9 counterexample: the slot record of `scheduleAppointment` does not
have exactly the shape the spec states for the booking request; it carries
a fifth field, additionalInfo. -/
theorem C9_counterexample :
    TestData.specBookingRequestFields.map TestData.specFieldToCode
        ≠ ScheduleScanPage.scheduleSlotFields
      ∧ "additionalInfo" ∈ ScheduleScanPage.scheduleSlotFields
      ∧ ScheduleScanPage.scheduleSlotFields.length = 5
      ∧ TestData.specBookingRequestFields.length = 4 := by
  decide

/-- C9 amended: the fixtures are flat value records; the test user has
name, email and password, the payment card has number, expiry, CVV and the
billing fields name and address, and the booking request has state, center,
additional-info, date and time fields. -/
theorem C9_amended_field_shapes :
    (["state", "center", "additionalInfo", "date", "time"].map TestData.specFieldToCode
        = ScheduleScanPage.scheduleSlotFields)
      ∧ TestData.testUserFields.Perm ["name", "email", "password"]
      ∧ TestData.paymentCardFields = ["number", "expiry", "cvv"] ++ ["name", "address"] := by
  decide

/-- C7: whenever a page-object goto navigates, the path it navigates to is
the documented one: /schedule for ScheduleScanPage, /select-scan for
SelectScanPage, /reserve-appointment for ReserveAppointmentPage; and
LoginPage tries /login first. -/
theorem C7_goto_paths :
    LoginPage.loginNavUrls.head? = some "/login"
      ∧ (∀ url p, ScheduleScanPage.gotoTarget url = some p → p = "/schedule")
      ∧ (∀ url dash p, SelectScanPage.gotoTarget url dash = some p → p = "/select-scan")
      ∧ (∀ url closed p, ReserveAppointmentPage.gotoTarget url closed = some p →
          p = "/reserve-appointment") := by
  refine ⟨rfl, ?_, ?_, ?_⟩
  · intro url p h
    unfold ScheduleScanPage.gotoTarget at h
    split at h
    · exact absurd h (by simp)
    · simpa using h.symm
  · intro url dash p h
    unfold SelectScanPage.gotoTarget at h
    split at h
    · exact absurd h (by simp)
    · split at h
      · exact absurd h (by simp)
      · simpa using h.symm
  · intro url closed p h
    unfold ReserveAppointmentPage.gotoTarget at h
    split at h
    · simpa using h.symm
    · split at h
      · exact absurd h (by simp)
      · simpa using h.symm

theorem C7_goto_paths_witness :
    LoginPage.loginNavUrls.head? = some "/login"
      ∧ "/schedule" = "/schedule"
      ∧ "/select-scan" = "/select-scan"
      ∧ "/reserve-appointment" = "/reserve-appointment" :=
  ⟨C7_goto_paths.1,
   C7_goto_paths.2.1 "https://myezra-staging.ezra.com/dashboard" "/schedule" (by decide),
   C7_goto_paths.2.2.1 "https://myezra-staging.ezra.com/dashboard" false "/select-scan" (by decide),
   C7_goto_paths.2.2.2 "https://myezra-staging.ezra.com/schedule" false "/reserve-appointment" (by decide)⟩

/-- C8 counterexample: the card number the decline spec submits is the
hardcoded declined test card, not a value taken from an environment
variable: with every variable set to a sentinel the submitted number is
still the literal.  The registration password is likewise a literal. -/
theorem C8_counterexample :
    TestData.declineSpecCardNumber (fun _ => some "9999 9999 9999 9999")
        = "4000 0000 0000 0002"
      ∧ TestData.declineSpecCardNumber (fun _ => none) = "4000 0000 0000 0002"
      ∧ TestData.registerSpecPassword = "YourTestPassword!" := by
  decide

/-- C8 amended: the valid test user and valid card take their values from
the environment variables TEST_USER_EMAIL, TEST_USER_PASSWORD,
TEST_CARD_NUMBER, TEST_CARD_EXPIRY and TEST_CARD_CVV (with hardcoded
defaults when unset), but the declined-card fixture used by the decline
spec and the registration password are hardcoded literals. -/
theorem C8_amended_env_credentials : ∀ (env : TestData.EnvMap) (v : String),
    (env "TEST_USER_EMAIL" = some v → v ≠ "" → (TestData.testUsersValid env).email = v)
      ∧ (env "TEST_USER_PASSWORD" = some v → v ≠ "" → (TestData.testUsersValid env).password = v)
      ∧ (env "TEST_CARD_NUMBER" = some v → v ≠ "" → (TestData.testCardsValid env).number = v)
      ∧ (env "TEST_CARD_EXPIRY" = some v → v ≠ "" → (TestData.testCardsValid env).expiry = v)
      ∧ (env "TEST_CARD_CVV" = some v → v ≠ "" → (TestData.testCardsValid env).cvv = v)
      ∧ TestData.declineSpecCardNumber env = "4000 0000 0000 0002"
      ∧ TestData.registerSpecPassword = "YourTestPassword!" := by
  intro env v
  refine ⟨?_, ?_, ?_, ?_, ?_, rfl, rfl⟩ <;>
    · intro hset hne
      simp [TestData.testUsersValid, TestData.testCardsValid, TestData.envOrDefault, hset, hne]

theorem C8_amended_env_credentials_witness :
    (TestData.testUsersValid (fun _ => some "abc")).email = "abc"
      ∧ (TestData.testCardsValid (fun _ => some "abc")).number = "abc" :=
  ⟨(C8_amended_env_credentials (fun _ => some "abc") "abc").1 rfl (by decide),
   (C8_amended_env_credentials (fun _ => some "abc") "abc").2.2.1 rfl (by decide)⟩

/-- C4: for every page state, `handleTimezonePopup` (any action) and
`acceptCookies` resolve normally; a missing popup or a failing click is
swallowed by the surrounding try/catch and the caller continues. -/
theorem C4_popup_handlers_resolve :
    ∀ (env : TimezoneHandler.TzEnv) (a : TimezoneHandler.TzAction)
      (envC : CookieHandler.CookieEnv),
      TimezoneHandler.handleTimezonePopup env a = .ok ()
        ∧ CookieHandler.acceptCookies envC = .ok () :=
  fun _ _ _ => ⟨tryCatchUnit_ok _, tryCatchUnit_ok _⟩

/-- C2 counterexample: `selectCenter` propagates an error to its caller on
the concrete page state where neither the calendar nor the requested center
is visible, so not every method swallows its failures. -/
theorem C2_counterexample :
    isOkE (ScheduleScanPage.selectCenter centerMissingEnv "Walnut Creek") = false := by
  rfl

/-- C2 amended: the popup and cookie handlers swallow every internal
failure (catch, log, continue), but page-object methods such as
`selectCenter`, `getStripeFrame` and `submit` do propagate exceptions to
their caller when required elements are missing. -/
theorem C2_amended_error_handling :
    (∀ (env : TimezoneHandler.TzEnv) (a : TimezoneHandler.TzAction),
        TimezoneHandler.handleTimezonePopup env a = .ok ())
      ∧ (∀ envC : CookieHandler.CookieEnv, CookieHandler.acceptCookies envC = .ok ())
      ∧ isOkE (ScheduleScanPage.selectCenter centerMissingEnv "Walnut Creek") = false
      ∧ isOkE (ReserveAppointmentPage.getStripeFrame noFramesEnv) = false
      ∧ isOkE (RegistrationPage.submit neverEnabledEnv).1 = false := by
  refine ⟨fun _ _ => tryCatchUnit_ok _, fun _ => tryCatchUnit_ok _, rfl, ?_, rfl⟩
  have hp := pollStripeFrame_none noFramesEnv (fun _ => rfl) noFramesEnv.maxPolls 0
  simp [ReserveAppointmentPage.getStripeFrame, noFramesEnv, isOkE] at hp ⊢
  simp [hp]

/-- C3 counterexample: `fillPaymentDetails` re-attempts the card-number
entry: on the page state where the first fill leaves two digits it performs
a second, character-by-character entry attempt. -/
theorem C3_counterexample :
    (ReserveAppointmentPage.fillCardNumberStep cardRetryEnv).2 = 2
      ∧ ¬ ((ReserveAppointmentPage.fillCardNumberStep cardRetryEnv).2 ≤ 1) := by
  decide

/-- C3 amended: contrary to the claim, the suite does re-attempt failed or
unconfirmed actions, at the following places, each a fixed small number of
extra attempts with no backoff: the card-number step of
`fillPaymentDetails` makes exactly one extra entry attempt, exactly when
the first fill reads back empty or with fewer than 15 digits; a rejected
Confirm click in `handleTimezonePopup` is re-attempted once as a
JavaScript click, so at most two click attempts per selector;
`fillPaymentDetails` tries at most four strategies to select the billing
country; the goto of LoginPage visits each candidate URL at most once and
then re-tries /login one extra time, so /login is visited at most twice;
`selectAllCheckboxes` clicks a checkbox at most twice, a second time only
when a standard input still reads unchecked; and `submit` re-polls the
enabled state but clicks at most once. -/
theorem C3_amended_retry_inventory :
    ∀ (e1 : ReserveAppointmentPage.CardFillEnv) (e2 : RegistrationPage.SubmitEnv)
      (e3 : RegistrationPage.CheckboxEnv) (a b : Bool)
      (e4 : ReserveAppointmentPage.CountryEnv) (e5 : LoginPage.GotoEnv),
      ((ReserveAppointmentPage.fillCardNumberStep e1).2 =
          if e1.valueAfterFill = "" || (stripWhitespace e1.valueAfterFill).length < 15
          then 2 else 1)
        ∧ (RegistrationPage.submit e2).2 ≤ 1
        ∧ RegistrationPage.processCheckboxClicks e3 ≤ 2
        ∧ (TimezoneHandler.confirmClickStep a b).1 = (a || b)
        ∧ (TimezoneHandler.confirmClickStep a b).2 ≤ 2
        ∧ ((TimezoneHandler.confirmClickStep a b).2 = 2 ↔ a = false)
        ∧ (ReserveAppointmentPage.selectCountryStep e4).2
            ≤ ReserveAppointmentPage.countrySelectionStrategyCount
        ∧ (LoginPage.gotoNavigations e5).length ≤ LoginPage.loginNavUrls.length + 1
        ∧ (LoginPage.gotoNavigations e5).count "/login" ≤ 2 := by
  intro e1 e2 e3 a b e4 e5
  refine ⟨?_, ?_, ?_, ?_, ?_, ?_, ?_, ?_, ?_⟩
  · unfold ReserveAppointmentPage.fillCardNumberStep
    by_cases hA : e1.valueAfterFill = "" <;>
      by_cases hB : (stripWhitespace e1.valueAfterFill).length < 15 <;>
        by_cases hC : (stripWhitespace e1.valueAfterRetry).length < 15 <;>
          simp [hA, hB, hC]
  · unfold RegistrationPage.submit
    by_cases h1 : e2.visible <;> by_cases h2 : e2.attached <;>
      by_cases h3 : e2.enabledAt 0 <;> by_cases h4 : e2.clickOk <;>
        by_cases h5 : e2.enabledAt 1 <;>
          by_cases h6 : e2.enabledAt (RegistrationPage.submitPollIdx e2 1 10) <;>
            simp [h1, h2, h3, h4, h5, h6]
  · unfold RegistrationPage.processCheckboxClicks
    by_cases h1 : e3.visible <;> by_cases h2 : e3.tagIsInput <;>
      by_cases h3 : e3.checkedBefore <;> by_cases h4 : e3.checkedAfterClick <;>
        by_cases h5 : e3.ariaChecked = "true" <;>
          simp [h1, h2, h3, h4, h5]
  · cases a <;> cases b <;> simp [TimezoneHandler.confirmClickStep]
  · cases a <;> cases b <;> simp [TimezoneHandler.confirmClickStep]
  · cases a <;> cases b <;> simp [TimezoneHandler.confirmClickStep]
  · unfold ReserveAppointmentPage.selectCountryStep
    split
    · simp
    · exact le_trans (countryLoop_attempts_le e4 _) (by simp)
  · have hr : List.range LoginPage.loginNavUrls.length = [0, 1, 2, 3] := by decide
    unfold LoginPage.gotoNavigations
    rw [hr]
    by_cases h0 : e5.succeedsAt 0 <;> by_cases h1 : e5.succeedsAt 1 <;>
      by_cases h2 : e5.succeedsAt 2 <;> by_cases h3 : e5.succeedsAt 3 <;>
        simp [LoginPage.gotoNavSeq, LoginPage.loginNavUrls, h0, h1, h2, h3]
  · have hr : List.range LoginPage.loginNavUrls.length = [0, 1, 2, 3] := by decide
    unfold LoginPage.gotoNavigations
    rw [hr]
    by_cases h0 : e5.succeedsAt 0 <;> by_cases h1 : e5.succeedsAt 1 <;>
      by_cases h2 : e5.succeedsAt 2 <;> by_cases h3 : e5.succeedsAt 3 <;>
        simp [LoginPage.gotoNavSeq, LoginPage.loginNavUrls, h0, h1, h2, h3]

/-- C1: when the expected UI element does not appear within the timeout,
the operation throws instead of returning normally: `selectCenter` when the
center option is not visible (and no calendar is already up),
`scheduleAppointment` when no date click makes time slots appear, and
`getStripeFrame` when no frame ever shows a Card-number field. -/
theorem C1_missing_elements_throw :
    (∀ (env : ScheduleScanPage.SchedEnv) (name : String),
        env.calendarAlreadyVisible = false → env.centerOptionVisible = false →
        isOkE (ScheduleScanPage.selectCenter env name) = false)
      ∧ (∀ (env : ScheduleScanPage.SchedEnv) (slot : ScheduleScanPage.SchedSlot),
          (∀ d, env.slotsAfterKnown d = false) → (∀ i, env.slotsAfterScan i = false) →
          isOkE (ScheduleScanPage.scheduleAppointment env slot) = false)
      ∧ (∀ env : ReserveAppointmentPage.StripeEnv,
          (∀ t, ReserveAppointmentPage.findStripeFrame (env.framesAt t) = none) →
          isOkE (ReserveAppointmentPage.getStripeFrame env) = false) := by
  refine ⟨?_, ?_, ?_⟩
  · intro env name h1 h2
    unfold ScheduleScanPage.selectCenter
    simp [h1, h2, isOkE]
  · intro env slot h1 h2
    have hk : ScheduleScanPage.tryKnownDates env = false := by
      simp [ScheduleScanPage.tryKnownDates, h1]
    have hs : ScheduleScanPage.tryScanDates env = false := by
      simp [ScheduleScanPage.tryScanDates, h2]
    unfold ScheduleScanPage.scheduleAppointment
    cases ScheduleScanPage.selectState env with
    | error e => rfl
    | ok u =>
      cases ScheduleScanPage.selectCenter env slot.centerName with
      | error e => rfl
      | ok u2 =>
        by_cases hnov : env.novemberHeaderVisible <;>
          simp [hnov, hk, hs, isOkE]
  · intro env h
    unfold ReserveAppointmentPage.getStripeFrame
    by_cases hpc : env.pageClosed
    · simp [hpc, isOkE]
    · have hp := pollStripeFrame_none env h env.maxPolls 0
      simp [hpc, hp, isOkE]

theorem C1_missing_elements_throw_witness :
    isOkE (ScheduleScanPage.selectCenter centerMissingEnv "Walnut Creek") = false
      ∧ isOkE (ScheduleScanPage.scheduleAppointment noSlotsEnv bookingSlot) = false
      ∧ isOkE (ReserveAppointmentPage.getStripeFrame noFramesEnv) = false :=
  ⟨C1_missing_elements_throw.1 centerMissingEnv "Walnut Creek" rfl rfl,
   C1_missing_elements_throw.2.1 noSlotsEnv bookingSlot (fun _ => rfl) (fun _ => rfl),
   C1_missing_elements_throw.2.2 noFramesEnv (fun _ => rfl)⟩

theorem strategy0Iter_eq (env : TimezoneHandler.TzEnv)
    (hr : ∀ i, env.s0redirectToLogin i = false)
    (hp : ∀ i, env.s0popupGone i = true) (i : Nat) :
    TimezoneHandler.strategy0Iter env i =
      if TimezoneHandler.eligibleConfirmButton env i then .hit else .next := by
  unfold TimezoneHandler.strategy0Iter TimezoneHandler.eligibleConfirmButton
  by_cases h1 : env.s0visible i <;> simp [h1, TimezoneHandler.confirmSelectors, hr i, hp i]
  by_cases h2 : TimezoneHandler.isSignOutText (normalizeText (env.s0text i)) <;> simp [h2]
  by_cases hge : 5 ≤ i
  · have ha1 : ¬ (i + 2 < 7) := by omega
    have ha2 : (7:Nat) ≤ i + 2 := by omega
    have ha3 : ¬ (i < 5) := by omega
    by_cases hc : strContains (normalizeText (env.s0text i)) "confirm" <;>
      by_cases h4 : env.s0enabled i <;>
        by_cases h5 : env.s0scrollOk i <;>
          by_cases hsv : env.s0stillVisible i <;>
            by_cases hse : env.s0stillEnabled i <;>
              by_cases hck : env.s0clickOk i <;>
                by_cases hjs : env.s0jsClickOk i <;>
                  simp [hc, h4, h5, hsv, hse, hck, hjs, ha1, ha2, ha3, hge]
  · have hb1 : i + 2 < 7 := by omega
    have hb2 : ¬ ((7:Nat) ≤ i + 2) := by omega
    have hb3 : i < 5 := by omega
    by_cases hc : strContains (normalizeText (env.s0text i)) "confirm" <;>
      by_cases h4 : env.s0enabled i <;>
        by_cases h5 : env.s0scrollOk i <;>
          by_cases hsv : env.s0stillVisible i <;>
            by_cases hse : env.s0stillEnabled i <;>
              by_cases hck : env.s0clickOk i <;>
                by_cases hjs : env.s0jsClickOk i <;>
                  simp [hc, h4, h5, hsv, hse, hck, hjs, hb1, hb2, hb3, hge]

theorem strategy0Go_find (env : TimezoneHandler.TzEnv)
    (hr : ∀ i, env.s0redirectToLogin i = false)
    (hp : ∀ i, env.s0popupGone i = true) :
    ∀ l : List Nat, TimezoneHandler.strategy0Go env l =
      match l.find? (TimezoneHandler.eligibleConfirmButton env) with
      | some i => .clicked i
      | none => .fallthrough := by
  intro l
  induction l with
  | nil => rfl
  | cons i rest ih =>
    simp only [TimezoneHandler.strategy0Go, strategy0Iter_eq env hr hp i]
    by_cases he : TimezoneHandler.eligibleConfirmButton env i = true
    · rw [if_pos he, List.find?_cons_of_pos _ he]
    · rw [if_neg he, List.find?_cons_of_neg _ he]
      exact ih

/-- C5 counterexample: the Strategy-0 confirm selector chain has seven
entries, not five. -/
theorem C5_counterexample :
    TimezoneHandler.confirmSelectors.length = 7
      ∧ TimezoneHandler.confirmSelectors.length ≠ 5 := by
  decide

/-- C5 amended: the timezone confirm handler tries seven selectors in
sequence (four CSS selectors scoped to the timezone modal, then three
popup-relative fallbacks), and - provided each click dismisses the popup
and no click redirects to the login page - it clicks exactly the first
selector whose button is visible, enabled, not labeled as sign-out, and
labeled Confirm except for the last two fallback selectors, where any
non-sign-out label is accepted. -/
theorem C5_amended_selector_chain :
    ∀ env : TimezoneHandler.TzEnv,
      (∀ i, env.s0redirectToLogin i = false) →
      (∀ i, env.s0popupGone i = true) →
      (TimezoneHandler.strategy0 env =
          match (List.range TimezoneHandler.confirmSelectors.length).find?
              (TimezoneHandler.eligibleConfirmButton env) with
          | some i => .clicked i
          | none => .fallthrough)
        ∧ TimezoneHandler.confirmSelectors.length = 7 := by
  intro env hr hp
  exact ⟨strategy0Go_find env hr hp _, rfl⟩

theorem C5_amended_selector_chain_witness :
    (TimezoneHandler.strategy0 tzEnvEligible =
        match (List.range TimezoneHandler.confirmSelectors.length).find?
            (TimezoneHandler.eligibleConfirmButton tzEnvEligible) with
        | some i => .clicked i
        | none => .fallthrough)
      ∧ TimezoneHandler.confirmSelectors.length = 7 :=
  C5_amended_selector_chain tzEnvEligible (fun _ => rfl) (fun _ => rfl)

/-- C6: `scheduleAppointment` searches for the time slot labeled with the
requested time after replacing :00 with :30 - so an on-the-hour request is
never matched verbatim - and clicks the first listed slot when no label
matches. -/
theorem C6_time_slot_selection :
    ∀ (env : ScheduleScanPage.SchedEnv) (slot : ScheduleScanPage.SchedSlot)
      (r : ScheduleScanPage.SchedResult),
      ScheduleScanPage.scheduleAppointment env slot = .ok r →
      (r.clickedSlot =
          (match env.slotLabels.find?
              (fun l => hasTextCI l (replaceFirst slot.appointmentTime ":00" ":30")) with
           | some l => l
           | none => env.slotLabels.headD ""))
        ∧ (strContains slot.appointmentTime ":00" = true →
            replaceFirst slot.appointmentTime ":00" ":30" ≠ slot.appointmentTime) := by
  intro env slot r h
  refine ⟨?_, fun hc => replaceFirst_ne_of_contains _ hc⟩
  unfold ScheduleScanPage.scheduleAppointment at h
  cases hss : ScheduleScanPage.selectState env with
  | error e => rw [hss] at h; exact absurd h (by simp)
  | ok u =>
    rw [hss] at h
    cases hsc : ScheduleScanPage.selectCenter env slot.centerName with
    | error e => rw [hsc] at h; exact absurd h (by simp)
    | ok u2 =>
      rw [hsc] at h
      repeat' split at h
      all_goals try (cases hb : (ScheduleScanPage.tryKnownDates env
        || ScheduleScanPage.tryScanDates env) <;> simp [hb] at h <;> done)
      all_goals try (simp only [Except.ok.injEq, reduceCtorEq] at h)
      all_goals (
        rcases hb2 : (ScheduleScanPage.tryKnownDates env
            || ScheduleScanPage.tryScanDates env) with _ | _
        · rw [hb2] at h
          exact absurd h (by simp)
        · rw [hb2] at h
          rw [if_neg (by simp)] at h
          simp only [Except.ok.injEq] at h
          rw [← h])

theorem C6_time_slot_selection_witness :
    ((⟨"10:30 AM"⟩ : ScheduleScanPage.SchedResult).clickedSlot =
        (match schedOkEnv.slotLabels.find?
            (fun l => hasTextCI l (replaceFirst bookingSlot.appointmentTime ":00" ":30")) with
         | some l => l
         | none => schedOkEnv.slotLabels.headD ""))
      ∧ replaceFirst bookingSlot.appointmentTime ":00" ":30" ≠ bookingSlot.appointmentTime :=
  ⟨(C6_time_slot_selection schedOkEnv bookingSlot ⟨"10:30 AM"⟩ (by rfl)).1,
   (C6_time_slot_selection schedOkEnv bookingSlot ⟨"10:30 AM"⟩ (by rfl)).2 (by decide)⟩
